import Mathlib

/-!
# Verification of the StreamReceiver action admission controller and frame decoder

Shallow embedding of the `StreamReceiver` class (the modified ws-scrcpy client):
the action log (`actionMaps`), the classification routine `judgeConcurrency`,
the predecessor lookups `getLastAction` / `getLastExecutedAction` /
`getLastNonConcurrencyAction`, the admission pipeline `sendEvent`, and the
inbound frame decoder `onSocketMessage` / `handleInitialInfo`.

JavaScript `Map` objects are embedded as insertion-ordered association lists;
`undefined` results and thrown `TypeError`s are embedded with `Option`;
the asynchronous authorization round trip is embedded as an explicit
environment parameter (the parsed response, or `none` for a network /
parse failure); the 100 ms polling loop of the concurrent path is embedded
as a bounded scan over a discrete trace of observations of the predecessor
record's `executed` field (one observation per poll tick).
-/

namespace WsScrcpy

/-! ## Action records and the action log (`actionMaps`) -/

/-- One entry of `actionMaps`: the `actionMap` built in `sendEvent` from
`action_time`, the spread of the control event, and the `executed` flag that
may be set later.  Only the fields that the controller's logic reads are
carried; the payload fields (`contentRect`, `device_name`, pointer position)
are never consulted by any branch and are omitted. -/
structure ActionRecord where
  action_time : Nat
  type : Nat
  action : Nat
  keycode : Nat
  executed : Option Bool
  deriving Repr, DecidableEq

/-- The outgoing control event as far as the controller reads it
(`event.type`, `event.action`, `event.keycode`). -/
structure ControlEvent where
  type : Nat
  action : Nat
  keycode : Nat
  deriving Repr, DecidableEq

/-- `this.actionMaps.set(key, value)`: a JavaScript `Map.set`, which replaces
the value in place when the key is present and appends otherwise. -/
def mapSet (log : List ActionRecord) (r : ActionRecord) : List ActionRecord :=
  if log.any (fun x => x.action_time == r.action_time) then
    log.map (fun x => if x.action_time == r.action_time then r else x)
  else
    log ++ [r]

/-- `this.actionMaps.get(k)`: `undefined` (here `none`) when the key is absent. -/
def mapGet (log : List ActionRecord) (k : Nat) : Option ActionRecord :=
  log.find? (fun x => x.action_time == k)

/-- The loop of `getLastAction`: scan the keys in insertion order, remember the
last key seen before the current record's key, starting from the sentinel `0`. -/
def lastKeyAux (keys : List Nat) (t lastKey : Nat) : Nat :=
  match keys with
  | [] => lastKey
  | k :: ks => if k = t then lastKey else lastKeyAux ks t k

/-- `getLastAction`: the record stored under the key immediately preceding the
current record's key (sentinel key `0` when there is none); `none` embeds the
`undefined` that `Map.get` yields when the fallback key is absent. -/
def getLastAction (log : List ActionRecord) (t : Nat) : Option ActionRecord :=
  mapGet log (lastKeyAux (log.map (fun x => x.action_time)) t 0)

/-- The loop of `getLastExecutedAction`: like `lastKeyAux` but the candidate key
only advances past records whose `executed` value is truthy (i.e. `true`). -/
def lastExecutedKeyAux (log : List ActionRecord) (t acc : Nat) : Nat :=
  match log with
  | [] => acc
  | x :: xs =>
    if x.action_time = t then acc
    else lastExecutedKeyAux xs t (if x.executed = some true then x.action_time else acc)

/-- `getLastExecutedAction`: the most recent record strictly before the current
key whose `executed` field is `true` (sentinel key `0` when there is none). -/
def getLastExecutedAction (log : List ActionRecord) (t : Nat) : Option ActionRecord :=
  mapGet log (lastExecutedKeyAux log t 0)

/-! ## Classification (`judgeConcurrency`) -/

/-- `nonConcurrentType` from `judgeConcurrency`. -/
def nonConcurrentType : List Nat := [1, 4, 5, 6, 7, 8, 9, 10, 11, 101, 102]

/-- `nonConcurrentKeyCode` from `judgeConcurrency`. -/
def nonConcurrentKeyCode : List Nat := [3, 4, 24, 25, 26, 187]

/-- `judgeConcurrency(actionMap)`.  A result of `none` embeds the `TypeError`
thrown when `getLastAction` returns `undefined` and the code dereferences it
(`lastAction.get('type')`). -/
def judgeConcurrency (log : List ActionRecord) (r : ActionRecord) : Option Bool :=
  if nonConcurrentType.contains r.type then some false
  else if r.type = 0 then
    if r.action = 1 then some true
    else if nonConcurrentKeyCode.contains r.keycode then some false
    else
      match getLastAction log r.action_time with
      | some la => some (la.type == 0 && la.action == 0)
      | none => none
  else if r.type = 2 then
    if r.action = 0 then some false
    else if r.action = 1 then some true
    else if r.action = 2 then some true
    else some false
  else if r.type = 3 then
    match getLastAction log r.action_time with
    | some la => some (la.type == 3)
    | none => none
  else some false

/-- The `while (this.judgeConcurrency(lastAction))` walk of
`getLastNonConcurrencyAction`; `none` embeds the `TypeError` raised when the
walk reaches a missing predecessor.  The fuel bounds the walk; each step moves
strictly earlier in the log, so `log.length` steps always suffice. -/
def walkBack (log : List ActionRecord) : Option ActionRecord → Nat → Option ActionRecord
  | none, _ => none
  | some a, 0 =>
    match judgeConcurrency log a with
    | none => none
    | some false => some a
    | some true => none
  | some a, fuel + 1 =>
    match judgeConcurrency log a with
    | none => none
    | some false => some a
    | some true => walkBack log (getLastAction log a.action_time) fuel

/-- `getLastNonConcurrencyAction(actionMap)`: the nearest non-concurrent
ancestor of the current record. -/
def getLastNonConcurrencyAction (log : List ActionRecord) (r : ActionRecord) :
    Option ActionRecord :=
  walkBack log (getLastAction log r.action_time) log.length

/-! ## The admission pipeline (`sendEvent`) -/

/-- The `[4, 8, 9, 10, 101, 102]` fast-path set of `sendEvent`
("actions that do not affect state are executed directly"). -/
def fastTypes : List Nat := [4, 8, 9, 10, 101, 102]

/-- One HTTP POST to the authorization backend, as observed by the submitter:
the `concurrency` flag put into the request body, and whether the submitter
awaited the response (`await this.sendAction(...)`) or fired and forgot
(`this.sendAction(...)` / `this.sendActionConcurrency(...)`). -/
structure AuthCall where
  concurrency : Bool
  awaited : Bool
  deriving Repr, DecidableEq

/-- A successfully parsed authorization response body:
`result['action_flag']` and `result['action_time']`. -/
structure AuthResponse where
  action_flag : Bool
  action_time : Nat
  deriving Repr, DecidableEq

/-- The JavaScript loose comparison `this.action_time == actionMap.get('action_time')`.
`this.action_time` starts as the string `""`, which is loosely equal to the
number `0`; once overwritten by a response it holds that response's timestamp. -/
def looseEqTime : Option Nat → Nat → Bool
  | none, t => t == 0
  | some s, t => s == t

/-- The bounded 100 ms polling loop of the concurrent path, over a discrete
trace `obs` of the predecessor's `executed` field (`obs k` = its value at poll
tick `k`; tick 0 is the check before the first sleep).  Returns the tick at
which the loop exits: the first tick whose observation is set, or tick 31,
where `Date.now() - action_time > 3000` first holds (31 sleeps of 100 ms). -/
def pollExitAux (obs : Nat → Option Bool) : Nat → Nat → Nat
  | k, 0 => k
  | k, fuel + 1 => if (obs k).isSome then k else pollExitAux obs (k + 1) fuel

/-- The exit tick of the polling loop: `min(first set tick, 31)`. -/
def pollExit (obs : Nat → Option Bool) : Nat :=
  pollExitAux obs 0 31

/-- The observable effects of one `sendEvent(event)` call.
`executedWrites` lists the `actionMap.set('executed', _)` calls made for this
record, in order; `forwarded` records whether `sendActionEvent(event)` ran;
`authCalls` lists the backend requests issued synchronously by this call;
`backendTimeAfter`/`backendFlagAfter` are `this.action_time`/`this.action_flag`
at synchronous completion (only the awaited call of the non-concurrent path
updates them before the method returns); `crashed` embeds an uncaught
`TypeError` from dereferencing a missing predecessor record. -/
structure SendTrace where
  executedWrites : List Bool
  forwarded : Bool
  authCalls : List AuthCall
  backendTimeAfter : Option Nat
  backendFlagAfter : Bool
  crashed : Bool
  deriving Repr, DecidableEq

/-- The `actionMap` that `sendEvent` builds and logs for the event at time `t`
(`executed` is initially unset). -/
def newRecord (ev : ControlEvent) (t : Nat) : ActionRecord :=
  { action_time := t, type := ev.type, action := ev.action, keycode := ev.keycode,
    executed := none }

/-- `sendEvent(event)` as a function of the pre-call log, the event, the
current time `t = Date.now()`, the stored backend correlation state
(`this.action_time`, `this.action_flag`), the awaited authorization outcome
`resp` (`none` = network failure or unparsable body, leaving the stored state
unchanged), and the poll-trace `obs` of the predecessor's `executed` field. -/
def sendEvent (log : List ActionRecord) (ev : ControlEvent) (t : Nat)
    (backendTime : Option Nat) (backendFlag : Bool)
    (resp : Option AuthResponse) (obs : Nat → Option Bool) : SendTrace :=
  let r := newRecord ev t
  let log1 := mapSet log r
  if fastTypes.contains ev.type then
    { executedWrites := [true], forwarded := true,
      authCalls := [{ concurrency := false, awaited := false }],
      backendTimeAfter := backendTime, backendFlagAfter := backendFlag, crashed := false }
  else
    match judgeConcurrency log1 r with
    | none =>
      { executedWrites := [], forwarded := false, authCalls := [],
        backendTimeAfter := backendTime, backendFlagAfter := backendFlag, crashed := true }
    | some true =>
      match getLastNonConcurrencyAction log1 r, getLastAction log1 t with
      | some _, some _ =>
        if obs (pollExit obs) = some true then
          { executedWrites := [true], forwarded := true,
            authCalls := [{ concurrency := true, awaited := false }],
            backendTimeAfter := backendTime, backendFlagAfter := backendFlag,
            crashed := false }
        else
          { executedWrites := [false], forwarded := false, authCalls := [],
            backendTimeAfter := backendTime, backendFlagAfter := backendFlag,
            crashed := false }
      | _, _ =>
        { executedWrites := [], forwarded := false, authCalls := [],
          backendTimeAfter := backendTime, backendFlagAfter := backendFlag, crashed := true }
    | some false =>
      match getLastExecutedAction log1 t with
      | none =>
        { executedWrites := [], forwarded := false, authCalls := [],
          backendTimeAfter := backendTime, backendFlagAfter := backendFlag, crashed := true }
      | some lastExec =>
        if (t : Int) - (lastExec.action_time : Int) > 500 then
          let bt := match resp with | some a => some a.action_time | none => backendTime
          let bf := match resp with | some a => a.action_flag | none => backendFlag
          if looseEqTime bt t then
            if bf then
              { executedWrites := [true], forwarded := true,
                authCalls := [{ concurrency := false, awaited := true }],
                backendTimeAfter := bt, backendFlagAfter := bf, crashed := false }
            else
              { executedWrites := [false], forwarded := false,
                authCalls := [{ concurrency := false, awaited := true }],
                backendTimeAfter := bt, backendFlagAfter := bf, crashed := false }
          else
            { executedWrites := [false], forwarded := false,
              authCalls := [{ concurrency := false, awaited := true }],
              backendTimeAfter := bt, backendFlagAfter := bf, crashed := false }
        else
          { executedWrites := [], forwarded := false, authCalls := [],
            backendTimeAfter := backendTime, backendFlagAfter := backendFlag,
            crashed := false }

/-- The branch predicate of the client-side rate limiter: the submission is
non-concurrent, a last-executed record was found, and the spacing test
`action_time - lastExecutedAction.action_time > 500` fails. -/
def rateLimitedPath (log : List ActionRecord) (ev : ControlEvent) (t : Nat) : Bool :=
  if fastTypes.contains ev.type then false
  else
    match judgeConcurrency (mapSet log (newRecord ev t)) (newRecord ev t) with
    | some false =>
      match getLastExecutedAction (mapSet log (newRecord ev t)) t with
      | some le => !(decide ((t : Int) - (le.action_time : Int) > 500))
      | none => false
    | _ => false

/-! ## Inbound frame decoding (`onSocketMessage`, `handleInitialInfo`) -/

/-- `Util.stringToUtf8ByteArray('scrcpy_initial')`: the handshake magic prefix. -/
def MAGIC_BYTES_INITIAL : List Nat :=
  [115, 99, 114, 99, 112, 121, 95, 105, 110, 105, 116, 105, 97, 108]

/-- `StreamReceiver.EqualArrays(a, b)`: length check, then element-wise equality. -/
def EqualArrays (a b : List Nat) : Bool :=
  if a.length = b.length then (List.zip a b).all (fun p => p.1 == p.2) else false

/-- `Buffer.readInt32BE(0)`: a signed big-endian 32-bit read, which throws
(`none`) when fewer than 4 bytes remain. -/
def readInt32BE (b : List Nat) : Option Int :=
  match b with
  | b0 :: b1 :: b2 :: b3 :: _ =>
    let u : Nat := (b0 % 256) * 16777216 + (b1 % 256) * 65536 + (b2 % 256) * 256 + b3 % 256
    some (if u < 2147483648 then (u : Int) else (u : Int) - 4294967296)
  | _ => none

/-- `Buffer.slice(start, stop)` with JavaScript clamping: negative indices count
from the end, and an empty buffer results when the range is inverted. -/
def bufSlice (b : List Nat) (start stop : Int) : List Nat :=
  let n : Int := b.length
  let s : Int := if start < 0 then max (n + start) 0 else min start n
  let e : Int := if stop < 0 then max (n + stop) 0 else min stop n
  (b.take e.toNat).drop s.toNat

/-- `Map.set` for the decoder's keyed maps (replace in place or append). -/
def mapSetKV {α : Type} (m : List (Nat × α)) (k : Nat) (v : α) : List (Nat × α) :=
  if m.any (fun p => p.1 == k) then m.map (fun p => if p.1 == k then (k, v) else p)
  else m ++ [(k, v)]

/-- `Map.get` for the decoder's keyed maps. -/
def lookupKV {α : Type} (m : List (Nat × α)) (k : Nat) : Option α :=
  (m.find? (fun p => p.1 == k)).map Prod.snd

/-- `Set.add` on `encodersSet` (insertion-ordered, duplicates ignored). -/
def setAdd (s : List String) (x : String) : List String :=
  if s.contains x then s else s ++ [x]

/-- Modelled from the spec: `Util.filterTrailingZeroes` is declared outside
`src/`; the spec says the 64-byte device-name field is NUL-padded UTF-8 with
"trailing NULs stripped". -/
def filterTrailingZeroes (l : List Nat) : List Nat :=
  (l.reverse.dropWhile (fun b => b == 0)).reverse

/-- The external decoders that `handleInitialInfo` delegates to
(`DisplayInfo.fromBuffer` with its `BUFFER_LENGTH`, `ScreenInfo.fromBuffer`,
`VideoSettings.fromBuffer`, `Util.utf8ByteArrayToString`); they live outside
`src/`, so they are environment parameters, with `none` embedding a decode
throw. `D`, `S`, `V` are their result types. -/
structure HandshakeEnv (D S V : Type) where
  bufferLength : Nat
  displayFromBuffer : List Nat → Option D
  displayIdOf : D → Nat
  screenFromBuffer : List Nat → Option S
  videoFromBuffer : List Nat → Option V
  utf8ToString : List Nat → String

/-- The handshake-owned fields of `StreamReceiver`
(`displayInfoMap`, `connectionCountMap`, `screenInfoMap`, `videoSettingsMap`,
`encodersSet`, `clientId`, `deviceName`, `hasInitialInfo`). -/
structure SessionState (D S V : Type) where
  displayInfoMap : List (Nat × D)
  connectionCountMap : List (Nat × Int)
  screenInfoMap : List (Nat × S)
  videoSettingsMap : List (Nat × V)
  encodersSet : List String
  clientId : Int
  deviceName : String
  hasInitialInfo : Bool
  deriving DecidableEq

variable {D S V : Type}

/-- One iteration of the per-display loop of `handleInitialInfo` (lines that
parse one `DisplayInfo`, its connection count, and the optional
`ScreenInfo`/`VideoSettings` blocks).  Returns the state, the remaining bytes,
and whether the iteration completed without a decode throw; on a throw the
state keeps every mutation made before it. -/
def displayStep (env : HandshakeEnv D S V) (s : SessionState D S V) (rest : List Nat) :
    SessionState D S V × List Nat × Bool :=
  let videoPart := fun (s : SessionState D S V) (rest : List Nat) (displayId : Nat) =>
    match readInt32BE rest with
    | none => (s, rest, false)
    | some videoLen =>
      let rest := rest.drop 4
      if videoLen = 0 then (s, rest, true)
      else
        match env.videoFromBuffer (bufSlice rest 0 videoLen) with
        | none => (s, rest, false)
        | some v =>
          ({ s with videoSettingsMap := mapSetKV s.videoSettingsMap displayId v },
           bufSlice rest videoLen rest.length, true)
  match env.displayFromBuffer (rest.take env.bufferLength) with
  | none => (s, rest, false)
  | some d =>
    let displayId := env.displayIdOf d
    let s := { s with displayInfoMap := mapSetKV s.displayInfoMap displayId d }
    let rest := rest.drop env.bufferLength
    match readInt32BE rest with
    | none => (s, rest, false)
    | some cc =>
      let s := { s with connectionCountMap := mapSetKV s.connectionCountMap displayId cc }
      let rest := rest.drop 4
      match readInt32BE rest with
      | none => (s, rest, false)
      | some screenLen =>
        let rest := rest.drop 4
        if screenLen = 0 then videoPart s rest displayId
        else
          match env.screenFromBuffer (bufSlice rest 0 screenLen) with
          | none => (s, rest, false)
          | some sc =>
            videoPart { s with screenInfoMap := mapSetKV s.screenInfoMap displayId sc }
              (bufSlice rest screenLen rest.length) displayId

/-- The `for (let i = 0; i < displaysCount; i++)` loop of `handleInitialInfo`. -/
def displayLoop (env : HandshakeEnv D S V) :
    SessionState D S V → List Nat → Nat → SessionState D S V × List Nat × Bool
  | s, rest, 0 => (s, rest, true)
  | s, rest, n + 1 =>
    match displayStep env s rest with
    | (s2, rest2, true) => displayLoop env s2 rest2 n
    | (s2, rest2, false) => (s2, rest2, false)

/-- The `for (let i = 0; i < encodersCount; i++)` loop of `handleInitialInfo`. -/
def encoderLoop (env : HandshakeEnv D S V) :
    SessionState D S V → List Nat → Nat → SessionState D S V × List Nat × Bool
  | s, rest, 0 => (s, rest, true)
  | s, rest, n + 1 =>
    match readInt32BE rest with
    | none => (s, rest, false)
    | some nameLength =>
      let rest := rest.drop 4
      let nameBytes := bufSlice rest 0 nameLength
      let rest2 := bufSlice rest nameLength rest.length
      encoderLoop env { s with encodersSet := setAdd s.encodersSet (env.utf8ToString nameBytes) }
        rest2 n

/-- `handleInitialInfo(data)`.  Returns the state as left by the call and
whether decoding completed; on a decode throw the state keeps every in-place
mutation made before the throw (the maps are cleared, and partially rebuilt,
while parsing).  The boolean is `false` exactly when the original method
throws before reaching `this.hasInitialInfo = true`. -/
def handleInitialInfo (env : HandshakeEnv D S V) (s0 : SessionState D S V)
    (data : List Nat) : SessionState D S V × Bool :=
  if data.length < 78 then (s0, false)
  else
    let nameBytes := (data.drop 14).take 64
    let rest0 := data.drop 78
    match readInt32BE rest0 with
    | none => (s0, false)
    | some displaysCount =>
      let s1 : SessionState D S V :=
        { s0 with displayInfoMap := [], connectionCountMap := [],
                  screenInfoMap := [], videoSettingsMap := [] }
      match displayLoop env s1 (rest0.drop 4) displaysCount.toNat with
      | (s2, _, false) => (s2, false)
      | (s2, rest1, true) =>
        let s3 := { s2 with encodersSet := ([] : List String) }
        match readInt32BE rest1 with
        | none => (s3, false)
        | some encodersCount =>
          match encoderLoop env s3 (rest1.drop 4) encodersCount.toNat with
          | (s4, _, false) => (s4, false)
          | (s4, rest2, true) =>
            match readInt32BE rest2 with
            | none => (s4, false)
            | some cid =>
              ({ s4 with clientId := cid,
                         deviceName := env.utf8ToString (filterTrailingZeroes nameBytes),
                         hasInitialInfo := true }, true)

/-- One entry of the `displayInfo` event payload (`DisplayCombinedInfo`). -/
structure DisplayCombinedInfo (D S V : Type) where
  displayInfo : D
  videoSettings : Option V
  screenInfo : Option S
  connectionCount : Int
  deriving DecidableEq

/-- The session-lifecycle events raised by `triggerInitialInfoEvents`. -/
inductive LifecycleEvent (D S V : Type) where
  | encoders (names : List String)
  | clientsStats (clientId : Int) (deviceName : String)
  | displayInfo (infos : List (DisplayCombinedInfo D S V))
  deriving DecidableEq

/-- `triggerInitialInfoEvents()`: emits nothing before a handshake has been
received, and otherwise rebuilds the combined per-display view from the
current state, `connectionCount` defaulting to 0 (`|| 0`). -/
def triggerInitialInfoEvents (s : SessionState D S V) : List (LifecycleEvent D S V) :=
  if s.hasInitialInfo then
    [LifecycleEvent.encoders s.encodersSet,
     LifecycleEvent.clientsStats s.clientId s.deviceName,
     LifecycleEvent.displayInfo (s.displayInfoMap.map (fun p =>
       { displayInfo := p.2,
         videoSettings := lookupKV s.videoSettingsMap p.1,
         screenInfo := lookupKV s.screenInfoMap p.1,
         connectionCount := (lookupKV s.connectionCountMap p.1).getD 0 }))]
  else []

/-- The lifecycle events emitted by one `handleInitialInfo` call: the method
calls `triggerInitialInfoEvents` only on its final line, after a fully
successful decode. -/
def handshakeEvents (env : HandshakeEnv D S V) (s0 : SessionState D S V)
    (data : List Nat) : List (LifecycleEvent D S V) :=
  let res := handleInitialInfo env s0 data
  if res.2 then triggerInitialInfoEvents res.1 else []

/-- The three ways `onSocketMessage` disposes of an inbound binary message. -/
inductive InboundAction (D S V : Type) where
  | handshake (state : SessionState D S V) (ok : Bool)
      (events : List (LifecycleEvent D S V))
  | deviceMessage
  | video (payload : List Nat)
  deriving DecidableEq

/-- `onSocketMessage(event)` for an `ArrayBuffer` message.  `magicMessage` is
`DeviceMessage.MAGIC_BYTES_MESSAGE`, which is declared outside `src/`; the
source comment notes it has the same length as `MAGIC_BYTES_INITIAL`, so it is
an abstract parameter here. -/
def onSocketMessage (env : HandshakeEnv D S V) (magicMessage : List Nat)
    (s : SessionState D S V) (data : List Nat) : InboundAction D S V :=
  if MAGIC_BYTES_INITIAL.length < data.length then
    let magicBytes := data.take MAGIC_BYTES_INITIAL.length
    if EqualArrays magicBytes MAGIC_BYTES_INITIAL then
      InboundAction.handshake (handleInitialInfo env s data).1
        (handleInitialInfo env s data).2 (handshakeEvents env s data)
    else if EqualArrays magicBytes magicMessage then
      InboundAction.deviceMessage
    else
      InboundAction.video data
  else
    InboundAction.video data

/-! ## Action constants -/

/-- Modelled from the spec: the key/pointer action constants used by the
control messages (`MotionEvent.ACTION_*`, key press/release) are declared
outside `src/`.  The spec's key-event rule ("action==release → concurrent")
matched against `judgeConcurrency` (`action == 1` → concurrent; predecessor
key-press tested as `action == 0`) fixes press/down = 0 and release/up = 1,
leaving move = 2, the third pointer action the code branches on. -/
def ACTION_DOWN : Nat := 0

/-- Release/up action code; see `ACTION_DOWN`. -/
def ACTION_UP : Nat := 1

/-- Pointer-move action code; see `ACTION_DOWN`. -/
def ACTION_MOVE : Nat := 2

/-! ## Helper lemmas -/

theorem pollExitAux_le (obs : Nat → Option Bool) :
    ∀ fuel k, pollExitAux obs k fuel ≤ k + fuel := by
  intro fuel
  induction fuel with
  | zero => intro k; simp [pollExitAux]
  | succ n ih =>
    intro k
    simp only [pollExitAux]
    split
    · omega
    · have := ih (k + 1); omega

theorem pollExit_le (obs : Nat → Option Bool) : pollExit obs ≤ 31 :=
  pollExitAux_le obs 31 0

theorem pollExitAux_none_before (obs : Nat → Option Bool) :
    ∀ fuel k j, k ≤ j → j < pollExitAux obs k fuel → obs j = none := by
  intro fuel
  induction fuel with
  | zero =>
    intro k j h1 h2
    simp [pollExitAux] at h2
    omega
  | succ n ih =>
    intro k j h1 h2
    simp only [pollExitAux] at h2
    split at h2
    · omega
    · rename_i hk
      rcases Nat.eq_or_lt_of_le h1 with rfl | hlt
      · exact Option.not_isSome_iff_eq_none.mp hk
      · exact ih (k + 1) j hlt h2

theorem pollExit_none_before (obs : Nat → Option Bool) :
    ∀ k, k < pollExit obs → obs k = none := fun k hk =>
  pollExitAux_none_before obs 31 0 k (Nat.zero_le k) hk

theorem pollExitAux_some_or (obs : Nat → Option Bool) :
    ∀ fuel k, (obs (pollExitAux obs k fuel)).isSome ∨ pollExitAux obs k fuel = k + fuel := by
  intro fuel
  induction fuel with
  | zero => intro k; right; simp [pollExitAux]
  | succ n ih =>
    intro k
    simp only [pollExitAux]
    split
    · left; assumption
    · rcases ih (k + 1) with h | h
      · left; exact h
      · right; omega

theorem pollExit_some_or (obs : Nat → Option Bool) :
    (obs (pollExit obs)).isSome ∨ pollExit obs = 31 := by
  rcases pollExitAux_some_or obs 31 0 with h | h
  · left; exact h
  · right; exact h

theorem equalArrays_iff (a b : List Nat) : EqualArrays a b = true ↔ a = b := by
  induction a generalizing b with
  | nil => cases b <;> simp [EqualArrays]
  | cons x xs ih =>
    cases b with
    | nil => simp [EqualArrays]
    | cons y ys =>
      by_cases hl : xs.length = ys.length
      · have h2 := ih ys
        simp only [EqualArrays, List.length_cons, List.zip_cons_cons, List.all_cons,
          beq_iff_eq, if_pos hl, Bool.and_eq_true, List.cons.injEq] at h2 ⊢
        rw [if_pos (by omega)]
        simp only [Bool.and_eq_true, beq_iff_eq]
        constructor
        · rintro ⟨hxy, hall⟩
          exact ⟨hxy, h2.mp hall⟩
        · rintro ⟨hxy, hys⟩
          exact ⟨hxy, h2.mpr hys⟩
      · have hne : ¬(x :: xs).length = (y :: ys).length := by simp; omega
        simp only [EqualArrays, if_neg hne, Bool.false_eq_true, false_iff]
        intro hc
        injection hc with h1 h2
        exact hl (by rw [h2])

theorem readInt32BE_of_short (l : List Nat) (h : l.length < 4) : readInt32BE l = none := by
  match l with
  | [] => rfl
  | [_] => rfl
  | [_, _] => rfl
  | [_, _, _] => rfl
  | _ :: _ :: _ :: _ :: _ => simp at h; omega

/-! ## Claim C2: pointer/touch classification -/

/-- C2 (counterexample).  The claim states that `judgeConcurrency` classifies a
pointer event (type 2) with action move as non-concurrent and with action down
or up as concurrent.  With the action codes down = 0, up = 1, move = 2, the
code does the opposite for down and move: a pointer-down event is classified
NON-concurrent (`some false`) and a pointer-move event is classified
concurrent (`some true`). -/
theorem c2_counterexample :
    judgeConcurrency []
        { action_time := 100, type := 2, action := ACTION_DOWN, keycode := 0,
          executed := none } = some false ∧
    judgeConcurrency []
        { action_time := 100, type := 2, action := ACTION_MOVE, keycode := 0,
          executed := none } = some true := by
  decide

/-- C2 (amended): for every pointer/touch command (type 2), `judgeConcurrency`
classifies it as NON-concurrent when its action is down (0), and as concurrent
when its action is up (1) or move (2); in particular a pointer-down event is
non-concurrent (subject to the 500 ms/backend gate) and a following
pointer-move event is concurrent (resolved via the predecessor-executed
check). -/
theorem c2_pointer_classification (log : List ActionRecord) (r : ActionRecord)
    (h : r.type = 2) :
    (r.action = ACTION_DOWN → judgeConcurrency log r = some false) ∧
    (r.action = ACTION_UP → judgeConcurrency log r = some true) ∧
    (r.action = ACTION_MOVE → judgeConcurrency log r = some true) := by
  have hc : (2 : Nat) ∉ nonConcurrentType := by decide
  refine ⟨fun ha => ?_, fun ha => ?_, fun ha => ?_⟩ <;>
    simp [judgeConcurrency, h, ha, hc, ACTION_DOWN, ACTION_UP, ACTION_MOVE]

/-- C2 (witness for the amended theorem): a concrete pointer-down record is
classified non-concurrent. -/
theorem c2_witness :
    judgeConcurrency []
        { action_time := 7, type := 2, action := ACTION_DOWN, keycode := 0,
          executed := none } = some false :=
  (c2_pointer_classification []
    { action_time := 7, type := 2, action := ACTION_DOWN, keycode := 0, executed := none }
    rfl).1 rfl

/-! ## Claim C8: key-event classification -/

/-- C8 (confirmed): for every key event (type 0), `judgeConcurrency` classifies
it as concurrent when its action is release (1); otherwise as non-concurrent
when its keycode is in the fixed always-serialize set `[3, 4, 24, 25, 26, 187]`;
otherwise as concurrent iff the immediately preceding record in the action log
is a key-press event (type 0, action 0) — with `none` when no preceding record
exists (the original code then throws). -/
theorem c8_key_classification (log : List ActionRecord) (r : ActionRecord)
    (h : r.type = 0) :
    (r.action = ACTION_UP → judgeConcurrency log r = some true) ∧
    (r.action ≠ ACTION_UP → r.keycode ∈ nonConcurrentKeyCode →
      judgeConcurrency log r = some false) ∧
    (r.action ≠ ACTION_UP → r.keycode ∉ nonConcurrentKeyCode →
      judgeConcurrency log r =
        (getLastAction log r.action_time).map
          (fun la => la.type == 0 && la.action == ACTION_DOWN)) := by
  have hc : (0 : Nat) ∉ nonConcurrentType := by decide
  refine ⟨fun ha => ?_, fun ha hk => ?_, fun ha hk => ?_⟩
  · simp [judgeConcurrency, h, ha, hc, ACTION_UP]
  · simp only [ACTION_UP] at ha
    simp [judgeConcurrency, h, ha, hk, hc]
  · simp only [ACTION_UP] at ha
    cases hg : getLastAction log r.action_time <;>
      simp [judgeConcurrency, h, ha, hk, hc, hg, ACTION_DOWN]

/-- C8 (witness): a key event whose predecessor is a key press is classified
concurrent. -/
theorem c8_witness :
    judgeConcurrency
        [{ action_time := 10, type := 0, action := 0, keycode := 66, executed := some true },
         { action_time := 20, type := 0, action := 0, keycode := 65, executed := none }]
        { action_time := 20, type := 0, action := 0, keycode := 65, executed := none } =
      some true := by
  have h := (c8_key_classification
    [{ action_time := 10, type := 0, action := 0, keycode := 66, executed := some true },
     { action_time := 20, type := 0, action := 0, keycode := 65, executed := none }]
    { action_time := 20, type := 0, action := 0, keycode := 65, executed := none }
    rfl).2.2 (by decide) (by decide)
  rw [h]
  decide

/-! ## Claim C6: the fast path -/

/-- C6 (confirmed): for every command whose type is in the side-effect-free set
`[4, 8, 9, 10, 101, 102]`, `sendEvent` forwards it, fires the authorization
call without awaiting it, marks the record executed, and returns; this path
never waits on authorization and never drops. -/
theorem c6_fast_path (log : List ActionRecord) (ev : ControlEvent) (t : Nat)
    (backendTime : Option Nat) (backendFlag : Bool) (resp : Option AuthResponse)
    (obs : Nat → Option Bool) (h : ev.type ∈ fastTypes) :
    sendEvent log ev t backendTime backendFlag resp obs =
      { executedWrites := [true], forwarded := true,
        authCalls := [{ concurrency := false, awaited := false }],
        backendTimeAfter := backendTime, backendFlagAfter := backendFlag,
        crashed := false } := by
  simp [sendEvent, h]

/-- C6 (witness): a concrete type-4 command takes the fast path. -/
theorem c6_witness :
    (4 : Nat) ∈ fastTypes ∧
    sendEvent [] { type := 4, action := 0, keycode := 0 } 7 none false none (fun _ => none) =
      { executedWrites := [true], forwarded := true,
        authCalls := [{ concurrency := false, awaited := false }],
        backendTimeAfter := none, backendFlagAfter := false, crashed := false } :=
  ⟨by decide,
   c6_fast_path [] { type := 4, action := 0, keycode := 0 } 7 none false none (fun _ => none)
     (by decide)⟩

/-! ## Claim C10: the first record has no predecessor -/

/-- C10 (confirmed): for every command that is the first record in the action
log and does not take the fast path, the predecessor lookups fall back to the
sentinel key 0, which is absent from `actionMaps`, so they return no record and
the subsequent field access throws: `sendEvent` crashes on every non-fast-path
branch when the log was empty (and the fresh timestamp is not the sentinel 0
itself). -/
theorem c10_first_record_crash (ev : ControlEvent) (t : Nat) (backendTime : Option Nat)
    (backendFlag : Bool) (resp : Option AuthResponse) (obs : Nat → Option Bool)
    (hfast : ev.type ∉ fastTypes) (ht : t ≠ 0) :
    (sendEvent [] ev t backendTime backendFlag resp obs).crashed = true := by
  have hm : mapSet [] (newRecord ev t) = [newRecord ev t] := by simp [mapSet]
  have hga : getLastAction [newRecord ev t] t = none := by
    simp [getLastAction, lastKeyAux, mapGet, newRecord, ht]
  have hge : getLastExecutedAction [newRecord ev t] t = none := by
    simp [getLastExecutedAction, lastExecutedKeyAux, mapGet, newRecord, ht]
  rcases hj : judgeConcurrency [newRecord ev t] (newRecord ev t) with _ | b
  · simp [sendEvent, hfast, hm, hj]
  · cases b
    · simp [sendEvent, hfast, hm, hj, hge]
    · have hw : getLastNonConcurrencyAction [newRecord ev t] (newRecord ev t) = none := by
        unfold getLastNonConcurrencyAction
        rw [show (newRecord ev t).action_time = t from rfl, hga]
        rfl
      simp [sendEvent, hfast, hm, hj, hw, hga]

/-- C10 (witness): the very first submitted key event crashes the pipeline. -/
theorem c10_witness :
    (0 : Nat) ∉ fastTypes ∧ (5 : Nat) ≠ 0 ∧
    (sendEvent [] { type := 0, action := 0, keycode := 0 } 5 none false none
        (fun _ => none)).crashed = true :=
  ⟨by decide, by decide,
   c10_first_record_crash { type := 0, action := 0, keycode := 0 } 5 none false none
     (fun _ => none) (by decide) (by decide)⟩

/-! ## Claim C1: the 500 ms rate limiter -/

/-- C1 (counterexample).  The claim states that a non-concurrent command
arriving less than 500 ms after the most recent executed record is dropped
with its record marked `executed = false`.  The code does drop it and issues
no authorization call, but it returns without ever setting the `executed`
field: here a pointer-down 400 ms after an executed record resolves with no
`executed` write at all (`executedWrites = []`), not with a `false` write. -/
theorem c1_counterexample :
    sendEvent
        [{ action_time := 1000, type := 2, action := 0, keycode := 0, executed := some true }]
        { type := 2, action := 0, keycode := 0 } 1400 none false none (fun _ => none) =
      { executedWrites := [], forwarded := false, authCalls := [],
        backendTimeAfter := none, backendFlagAfter := false, crashed := false } := by
  decide

/-- C1 (amended): for every non-concurrent command submitted via `sendEvent`
whose elapsed time since the most recent executed record is not above 500 ms,
the command is dropped with no authorization call, but its record is left
unresolved — the `executed` field is never set (neither to `true` nor to
`false`). -/
theorem c1_rate_limited_drop (log : List ActionRecord) (ev : ControlEvent) (t : Nat)
    (backendTime : Option Nat) (backendFlag : Bool) (resp : Option AuthResponse)
    (obs : Nat → Option Bool) (le : ActionRecord)
    (hfast : ev.type ∉ fastTypes)
    (hjudge : judgeConcurrency (mapSet log (newRecord ev t)) (newRecord ev t) = some false)
    (hle : getLastExecutedAction (mapSet log (newRecord ev t)) t = some le)
    (hgap : ¬((t : Int) - (le.action_time : Int) > 500)) :
    sendEvent log ev t backendTime backendFlag resp obs =
      { executedWrites := [], forwarded := false, authCalls := [],
        backendTimeAfter := backendTime, backendFlagAfter := backendFlag,
        crashed := false } := by
  simp [sendEvent, hfast, hjudge, hle, hgap]

/-- C1 (witness): a concrete rate-limited pointer-down resolves with no
`executed` write and no authorization call. -/
theorem c1_witness :
    (2 : Nat) ∉ fastTypes ∧
    sendEvent
        [{ action_time := 2000, type := 2, action := 0, keycode := 0, executed := some true }]
        { type := 2, action := 0, keycode := 0 } 2300 none false none (fun _ => none) =
      { executedWrites := [], forwarded := false, authCalls := [],
        backendTimeAfter := none, backendFlagAfter := false, crashed := false } :=
  ⟨by decide,
   c1_rate_limited_drop
     [{ action_time := 2000, type := 2, action := 0, keycode := 0, executed := some true }]
     { type := 2, action := 0, keycode := 0 } 2300 none false none (fun _ => none)
     { action_time := 2000, type := 2, action := 0, keycode := 0, executed := some true }
     (by decide) (by decide) (by decide) (by decide)⟩

/-! ## Claim C4: every record is resolved exactly once -/

/-- C4 (counterexample).  The claim states that every submission resolves its
record exactly once, setting `executed` to `true` or `false` by the end of the
submission.  A non-concurrent command inside the 500 ms window finishes the
submission without any `executed` write (and without crashing), so its record
stays unresolved forever. -/
theorem c4_counterexample :
    (sendEvent
        [{ action_time := 5000, type := 2, action := 0, keycode := 0, executed := some true }]
        { type := 2, action := 0, keycode := 0 } 5100 none false none
        (fun _ => none)).executedWrites = [] ∧
    (sendEvent
        [{ action_time := 5000, type := 2, action := 0, keycode := 0, executed := some true }]
        { type := 2, action := 0, keycode := 0 } 5100 none false none
        (fun _ => none)).crashed = false := by
  decide

/-- C4 (amended): every submission writes the `executed` field of its record at
most once, and — whenever the call does not throw — it writes it exactly once
unless it takes the 500 ms rate-limiter drop branch, in which case the field is
never set. -/
theorem c4_resolved_at_most_once (log : List ActionRecord) (ev : ControlEvent) (t : Nat)
    (backendTime : Option Nat) (backendFlag : Bool) (resp : Option AuthResponse)
    (obs : Nat → Option Bool) :
    (sendEvent log ev t backendTime backendFlag resp obs).executedWrites.length ≤ 1 ∧
    ((sendEvent log ev t backendTime backendFlag resp obs).crashed = false →
      ((sendEvent log ev t backendTime backendFlag resp obs).executedWrites = [] ↔
        rateLimitedPath log ev t = true)) := by
  by_cases hfast : ev.type ∈ fastTypes
  · simp [sendEvent, rateLimitedPath, hfast]
  · rcases hjudge : judgeConcurrency (mapSet log (newRecord ev t)) (newRecord ev t) with _ | b
    · simp [sendEvent, rateLimitedPath, hfast, hjudge]
    · cases b
      · rcases hle : getLastExecutedAction (mapSet log (newRecord ev t)) t with _ | le
        · simp [sendEvent, rateLimitedPath, hfast, hjudge, hle]
        · by_cases hgap : (t : Int) - (le.action_time : Int) > 500
          · rcases resp with _ | a <;>
              simp [sendEvent, rateLimitedPath, hfast, hjudge, hle, hgap] <;>
              split_ifs <;> simp
          · simp [sendEvent, rateLimitedPath, hfast, hjudge, hle, hgap]
      · rcases hw : getLastNonConcurrencyAction (mapSet log (newRecord ev t)) (newRecord ev t)
          with _ | anc <;>
          rcases hp : getLastAction (mapSet log (newRecord ev t)) t with _ | pred
        · simp [sendEvent, rateLimitedPath, hfast, hjudge, hw, hp]
        · simp [sendEvent, rateLimitedPath, hfast, hjudge, hw, hp]
        · simp [sendEvent, rateLimitedPath, hfast, hjudge, hw, hp]
        · simp only [sendEvent, rateLimitedPath, hfast, hjudge, hw, hp]
          split_ifs <;> simp [hfast, hjudge]

/-- C4 (witness for the amended theorem): on a concrete fast-path command the
record is resolved exactly once and the rate-limiter branch is not taken. -/
theorem c4_witness :
    (sendEvent [] { type := 8, action := 0, keycode := 0 } 9 none false none
        (fun _ => none)).executedWrites.length ≤ 1 ∧
    ((sendEvent [] { type := 8, action := 0, keycode := 0 } 9 none false none
        (fun _ => none)).crashed = false →
      ((sendEvent [] { type := 8, action := 0, keycode := 0 } 9 none false none
          (fun _ => none)).executedWrites = [] ↔
        rateLimitedPath [] { type := 8, action := 0, keycode := 0 } 9 = true)) :=
  c4_resolved_at_most_once [] { type := 8, action := 0, keycode := 0 } 9 none false none
    (fun _ => none)

/-! ## Claim C5: the concurrent path -/

/-- C5 (confirmed): a command classified concurrent (whose predecessor lookups
succeed) polls the immediately preceding record's `executed` field once per
100 ms tick until it is set or the 3000 ms deadline passes (the exit tick is
the first tick with a set observation, else tick 31, the first tick at which
`Date.now() - action_time > 3000`); if the predecessor is observed
`executed = true` at the exit tick the command is forwarded and marked
executed with a single fire-and-forget `concurrency = true` authorization call
whose outcome is not consulted, and otherwise (predecessor resolved `false`,
or timeout with the field still unset) it is marked not executed, not
forwarded, and no authorization call is made. -/
theorem c5_concurrent_poll (log : List ActionRecord) (ev : ControlEvent) (t : Nat)
    (backendTime : Option Nat) (backendFlag : Bool) (resp : Option AuthResponse)
    (obs : Nat → Option Bool) (anc pred : ActionRecord)
    (hfast : ev.type ∉ fastTypes)
    (hjudge : judgeConcurrency (mapSet log (newRecord ev t)) (newRecord ev t) = some true)
    (hanc : getLastNonConcurrencyAction (mapSet log (newRecord ev t)) (newRecord ev t) =
      some anc)
    (hpred : getLastAction (mapSet log (newRecord ev t)) t = some pred) :
    (pollExit obs ≤ 31 ∧ (∀ k, k < pollExit obs → obs k = none) ∧
      ((obs (pollExit obs)).isSome ∨ pollExit obs = 31)) ∧
    (obs (pollExit obs) = some true →
      sendEvent log ev t backendTime backendFlag resp obs =
        { executedWrites := [true], forwarded := true,
          authCalls := [{ concurrency := true, awaited := false }],
          backendTimeAfter := backendTime, backendFlagAfter := backendFlag,
          crashed := false }) ∧
    (obs (pollExit obs) ≠ some true →
      sendEvent log ev t backendTime backendFlag resp obs =
        { executedWrites := [false], forwarded := false, authCalls := [],
          backendTimeAfter := backendTime, backendFlagAfter := backendFlag,
          crashed := false }) := by
  refine ⟨⟨pollExit_le obs, pollExit_none_before obs, pollExit_some_or obs⟩,
    fun h => ?_, fun h => ?_⟩ <;>
    simp [sendEvent, hfast, hjudge, hanc, hpred, h]

/-- C5 (witness): a concurrent pointer-move whose predecessor resolves
`executed = true` at poll tick 2 is forwarded with a fire-and-forget
`concurrency = true` call. -/
theorem c5_witness :
    sendEvent
        [{ action_time := 1000, type := 2, action := 0, keycode := 0, executed := some true },
         { action_time := 1100, type := 2, action := 2, keycode := 0, executed := none }]
        { type := 2, action := 2, keycode := 0 } 1200 none false none
        (fun k => if 2 ≤ k then some true else none) =
      { executedWrites := [true], forwarded := true,
        authCalls := [{ concurrency := true, awaited := false }],
        backendTimeAfter := none, backendFlagAfter := false, crashed := false } :=
  (c5_concurrent_poll
    [{ action_time := 1000, type := 2, action := 0, keycode := 0, executed := some true },
     { action_time := 1100, type := 2, action := 2, keycode := 0, executed := none }]
    { type := 2, action := 2, keycode := 0 } 1200 none false none
    (fun k => if 2 ≤ k then some true else none)
    { action_time := 1000, type := 2, action := 0, keycode := 0, executed := some true }
    { action_time := 1100, type := 2, action := 2, keycode := 0, executed := none }
    (by decide) (by decide) (by decide) (by decide)).2.1 (by decide)

/-! ## Claim C7: the non-concurrent authorization gate -/

/-- C7 (counterexample).  The claim states that on a missing response (network
failure) the record is marked `executed = false`.  The code instead compares
the record's timestamp against the STORED `this.action_time`/`this.action_flag`,
which a failed call leaves unchanged: with stale stored values
`action_time = 2000, action_flag = true` a non-concurrent command at
`t = 2000` whose authorization call fails is nevertheless forwarded and marked
executed. -/
theorem c7_counterexample :
    sendEvent
        [{ action_time := 1000, type := 2, action := 0, keycode := 0, executed := some true }]
        { type := 2, action := 0, keycode := 0 } 2000 (some 2000) true none (fun _ => none) =
      { executedWrites := [true], forwarded := true,
        authCalls := [{ concurrency := false, awaited := true }],
        backendTimeAfter := some 2000, backendFlagAfter := true, crashed := false } := by
  decide

/-- C7 (amended): for every non-concurrent command that passes the 500 ms
spacing check, exactly one awaited authorization call is issued and no retry is
attempted; a parsed response overwrites the stored `action_time`/`action_flag`,
and the command is forwarded and marked executed iff the echoed timestamp
equals the record's timestamp and the allow flag is true; on a missing or
unparsable response the stored values are left unchanged and the decision is
made against those stale values (so the command is dropped unless the stale
stored timestamp happens to equal this record's timestamp with the stale flag
true). -/
theorem c7_auth_gate (log : List ActionRecord) (ev : ControlEvent) (t : Nat)
    (backendTime : Option Nat) (backendFlag : Bool) (resp : Option AuthResponse)
    (obs : Nat → Option Bool) (le : ActionRecord)
    (hfast : ev.type ∉ fastTypes)
    (hjudge : judgeConcurrency (mapSet log (newRecord ev t)) (newRecord ev t) = some false)
    (hle : getLastExecutedAction (mapSet log (newRecord ev t)) t = some le)
    (hgap : (t : Int) - (le.action_time : Int) > 500) :
    (∀ a, resp = some a →
      sendEvent log ev t backendTime backendFlag resp obs =
        (if a.action_time = t ∧ a.action_flag = true then
          { executedWrites := [true], forwarded := true,
            authCalls := [{ concurrency := false, awaited := true }],
            backendTimeAfter := some a.action_time, backendFlagAfter := a.action_flag,
            crashed := false }
        else
          { executedWrites := [false], forwarded := false,
            authCalls := [{ concurrency := false, awaited := true }],
            backendTimeAfter := some a.action_time, backendFlagAfter := a.action_flag,
            crashed := false })) ∧
    (resp = none →
      sendEvent log ev t backendTime backendFlag resp obs =
        (if looseEqTime backendTime t = true ∧ backendFlag = true then
          { executedWrites := [true], forwarded := true,
            authCalls := [{ concurrency := false, awaited := true }],
            backendTimeAfter := backendTime, backendFlagAfter := backendFlag,
            crashed := false }
        else
          { executedWrites := [false], forwarded := false,
            authCalls := [{ concurrency := false, awaited := true }],
            backendTimeAfter := backendTime, backendFlagAfter := backendFlag,
            crashed := false })) := by
  constructor
  · rintro a rfl
    by_cases hmatch : a.action_time = t
    · cases hflag : a.action_flag <;>
        simp [sendEvent, hfast, hjudge, hle, hgap, looseEqTime, hmatch, hflag]
    · have : looseEqTime (some a.action_time) t = false := by
        simp [looseEqTime, hmatch]
      simp [sendEvent, hfast, hjudge, hle, hgap, this, hmatch]
  · rintro rfl
    by_cases hmatch : looseEqTime backendTime t = true
    · cases hflag : backendFlag <;>
        simp [sendEvent, hfast, hjudge, hle, hgap, hmatch, hflag]
    · have hm2 : looseEqTime backendTime t = false := by
        simpa using hmatch
      simp [sendEvent, hfast, hjudge, hle, hgap, hm2, hmatch]

/-- C7 (witness): with a parsed response echoing the record's timestamp and an
allow flag, the command is forwarded and marked executed. -/
theorem c7_witness :
    sendEvent
        [{ action_time := 1000, type := 2, action := 0, keycode := 0, executed := some true }]
        { type := 2, action := 0, keycode := 0 } 3000 none false
        (some { action_flag := true, action_time := 3000 }) (fun _ => none) =
      { executedWrites := [true], forwarded := true,
        authCalls := [{ concurrency := false, awaited := true }],
        backendTimeAfter := some 3000, backendFlagAfter := true, crashed := false } := by
  have h := (c7_auth_gate
    [{ action_time := 1000, type := 2, action := 0, keycode := 0, executed := some true }]
    { type := 2, action := 0, keycode := 0 } 3000 none false
    (some { action_flag := true, action_time := 3000 }) (fun _ => none)
    { action_time := 1000, type := 2, action := 0, keycode := 0, executed := some true }
    (by decide) (by decide) (by decide) (by decide)).1
    { action_flag := true, action_time := 3000 } rfl
  simpa using h

/-! ## Claim C3: malformed handshakes and SessionState -/

/-- A concrete decoder environment (all external decoders fail, which is
irrelevant to frames that never reach them). -/
def handshakeEnvNat : HandshakeEnv Nat Nat Nat :=
  { bufferLength := 24, displayFromBuffer := fun _ => none, displayIdOf := fun d => d,
    screenFromBuffer := fun _ => none, videoFromBuffer := fun _ => none,
    utf8ToString := fun _ => "" }

/-- A concrete prior SessionState holding one decoded display and one encoder. -/
def sessionBefore : SessionState Nat Nat Nat :=
  { displayInfoMap := [(0, 7)], connectionCountMap := [(0, 1)], screenInfoMap := [(0, 3)],
    videoSettingsMap := [], encodersSet := [""], clientId := 5, deviceName := "",
    hasInitialInfo := true }

/-- A handshake frame with a valid magic, name field and `displaysCount = 0`,
truncated before the encoders-count field. -/
def truncatedHandshake : List Nat :=
  MAGIC_BYTES_INITIAL ++ List.replicate 64 0 ++ [0, 0, 0, 0]

/-- C3 (counterexample).  The claim states that a malformed handshake leaves
the previous SessionState unchanged.  `handleInitialInfo` clears the display
maps (and, once the display loop finishes, the encoder set) before parsing is
complete, so a frame truncated after the displays-count field fails its decode
and emits no events, yet leaves a SessionState different from the prior one
(its maps have been wiped). -/
theorem c3_counterexample :
    (handleInitialInfo handshakeEnvNat sessionBefore truncatedHandshake).2 = false ∧
    handshakeEvents handshakeEnvNat sessionBefore truncatedHandshake = [] ∧
    (handleInitialInfo handshakeEnvNat sessionBefore truncatedHandshake).1 ≠
      sessionBefore := by
  refine ⟨by decide, by decide, ?_⟩
  decide

/-- C3 (amended): a malformed handshake frame fails its decode and emits no
lifecycle events; a frame too short to contain the magic, the 64-byte name
field and the displays-count field (fewer than 82 bytes) leaves the previous
SessionState untouched — but a frame that fails after the displays-count has
been read leaves the cleared/partially-rebuilt maps behind (the state is
replaced wholesale only by a successfully decoded handshake). -/
theorem c3_malformed_handshake {D S V : Type} (env : HandshakeEnv D S V)
    (s0 : SessionState D S V) (data : List Nat) :
    ((handleInitialInfo env s0 data).2 = false → handshakeEvents env s0 data = []) ∧
    (data.length < 82 → handleInitialInfo env s0 data = (s0, false)) := by
  constructor
  · intro h
    simp [handshakeEvents, h]
  · intro hlen
    by_cases h78 : data.length < 78
    · simp [handleInitialInfo, h78]
    · have hshort : (data.drop 78).length < 4 := by
        simp only [List.length_drop]
        omega
      simp [handleInitialInfo, h78, readInt32BE_of_short _ hshort]

/-- C3 (witness): a 3-byte frame fails with the prior state untouched and no
events emitted. -/
theorem c3_witness :
    handleInitialInfo handshakeEnvNat sessionBefore [1, 2, 3] = (sessionBefore, false) ∧
    handshakeEvents handshakeEnvNat sessionBefore [1, 2, 3] = [] := by
  have h := c3_malformed_handshake handshakeEnvNat sessionBefore [1, 2, 3]
  refine ⟨h.2 (by decide), h.1 ?_⟩
  rw [h.2 (by decide)]

/-! ## Claim C9: inbound message dispatch -/

/-- C9 (confirmed): every inbound binary message is dispatched by byte-exact
comparison of the 14-byte magic prefix: a message longer than the magic whose
prefix equals the handshake magic is handled as a handshake (state update plus
the lifecycle events of `handleInitialInfo`); one whose prefix equals the
device-message magic is emitted as `deviceMessage`; every other message —
including any not longer than the magic and any with an unmatched prefix — is
emitted verbatim as `video`. -/
theorem c9_dispatch {D S V : Type} (env : HandshakeEnv D S V) (magicMessage : List Nat)
    (s : SessionState D S V) (data : List Nat) :
    (14 < data.length → data.take 14 = MAGIC_BYTES_INITIAL →
      onSocketMessage env magicMessage s data =
        InboundAction.handshake (handleInitialInfo env s data).1
          (handleInitialInfo env s data).2 (handshakeEvents env s data)) ∧
    (14 < data.length → data.take 14 ≠ MAGIC_BYTES_INITIAL → data.take 14 = magicMessage →
      onSocketMessage env magicMessage s data = InboundAction.deviceMessage) ∧
    (¬14 < data.length → onSocketMessage env magicMessage s data =
      InboundAction.video data) ∧
    (data.take 14 ≠ MAGIC_BYTES_INITIAL → data.take 14 ≠ magicMessage →
      onSocketMessage env magicMessage s data = InboundAction.video data) := by
  have hlen : MAGIC_BYTES_INITIAL.length = 14 := rfl
  refine ⟨fun h1 h2 => ?_, fun h1 h2 h3 => ?_, fun h1 => ?_, fun h1 h2 => ?_⟩
  · have he : EqualArrays (data.take 14) MAGIC_BYTES_INITIAL = true :=
      (equalArrays_iff _ _).mpr h2
    simp [onSocketMessage, hlen, h1, he]
  · have he : EqualArrays (data.take 14) MAGIC_BYTES_INITIAL = false :=
      Bool.eq_false_iff.mpr (fun hc => h2 ((equalArrays_iff _ _).mp hc))
    have he2 : EqualArrays (data.take 14) magicMessage = true :=
      (equalArrays_iff _ _).mpr h3
    simp [onSocketMessage, hlen, h1, he, he2]
  · simp [onSocketMessage, hlen, h1]
  · by_cases hl : 14 < data.length
    · have he : EqualArrays (data.take 14) MAGIC_BYTES_INITIAL = false :=
        Bool.eq_false_iff.mpr (fun hc => h1 ((equalArrays_iff _ _).mp hc))
      have he2 : EqualArrays (data.take 14) magicMessage = false :=
        Bool.eq_false_iff.mpr (fun hc => h2 ((equalArrays_iff _ _).mp hc))
      simp [onSocketMessage, hlen, hl, he, he2]
    · simp [onSocketMessage, hlen, hl]

/-- C9 (witness): a 1-byte message is emitted verbatim as video. -/
theorem c9_witness :
    onSocketMessage handshakeEnvNat (List.replicate 14 1) sessionBefore [0] =
      InboundAction.video [0] :=
  (c9_dispatch handshakeEnvNat (List.replicate 14 1) sessionBefore [0]).2.2.1 (by decide)

end WsScrcpy
